import Mathlib

/-!
Verification of the two operational scripts of the repository:

* scripts/monitor_profit.py — polls a Sui address balance over JSON-RPC
  and posts a Telegram message when the balance delta reaches a threshold;
* scripts/restart_bot.py — periodically kills and relaunches the arbitrage
  bot inside a tmux session.

The scripts are shallowly embedded: the network and OS are modelled as
explicit inputs (an HTTP response value, tmux command outcomes), and each
loop iteration becomes a total Lean function over those inputs.  Python
exceptions that the scripts let escape are modelled with `Except`; the
ones the scripts catch are branches of the functions, producing log
events in place of `print` / `logging` calls.
-/

namespace SuiMev

/-- JSON values, used to model the request payloads the scripts build. -/
inductive Json where
  | str (s : String)
  | num (n : Int)
  | bool (b : Bool)
  | null
  | arr (elems : List Json)
  | obj (fields : List (String × Json))

/-- Field lookup in a JSON object (none on non-objects). -/
def Json.field? (j : Json) (k : String) : Option Json :=
  match j with
  | .obj fields => fields.lookup k
  | _ => none

/-- A log line emitted by a script: models both `print` in
monitor_profit.py and `logging.info` / `logging.error` in restart_bot.py. -/
inductive LogEvent where
  | info (msg : String)
  | error (msg : String)
  deriving Repr, DecidableEq

/- ### monitor_profit.py -/

/-- The balance-delta threshold, in MIST (source line 17). -/
def BALANCE_DIFF_THRESHOLD : Int := 500000000

/-- The JSON-RPC payload built by get_current_balance (source lines 39-44). -/
def balance_payload (profit_address : String) : Json :=
  .obj [("jsonrpc", .str "2.0"),
        ("id", .num 1),
        ("method", .str "suix_getBalance"),
        ("params", .arr [.str profit_address])]

/-- The options object of the get_tx query (source line 155). -/
def tx_query_options : Json :=
  .obj [("showEffects", .bool false),
        ("showInput", .bool false),
        ("showEvents", .bool false),
        ("showObjectChanges", .bool false),
        ("showBalanceChanges", .bool false)]

/-- The params list of the get_tx query (source lines 153-159):
filter object, cursor = None, limit = 1, descending = True. -/
def tx_params (profit_address : String) : List Json :=
  [.obj [("filter", .obj [("ToAddress", .str profit_address)]),
         ("options", tx_query_options)],
   .null,
   .num 1,
   .bool true]

/-- The JSON-RPC payload built by get_tx (source lines 161-166). -/
def tx_payload (profit_address : String) : Json :=
  .obj [("jsonrpc", .str "2.0"),
        ("id", .num 1),
        ("method", .str "suix_queryTransactionBlocks"),
        ("params", .arr (tx_params profit_address))]

/-- Body of the RPC response to suix_getBalance, as get_current_balance
inspects it: either an error field is present, or a result with a
totalBalance string, or anything else (malformed). -/
inductive RpcBody where
  | errorField
  | result (totalBalance : String)
  | malformed
  deriving Repr, DecidableEq

/-- Outcome of `requests.post` for the balance query: either the request
itself raised (connection error, timeout, ...), or a response with a
status code and a body arrived. -/
inductive HttpResult where
  | exn
  | resp (statusCode : Nat) (body : RpcBody)
  deriving Repr, DecidableEq

/-- `response.raise_for_status()` raises exactly for 4xx and 5xx codes. -/
def raise_for_status_raises (code : Nat) : Bool :=
  400 ≤ code && code < 600

/-- get_current_balance (source lines 23-75), as a function of the HTTP
outcome.  Returns the string handed back to the caller together with the
log lines printed.  Every failure path returns "0"; the success path
returns the totalBalance field unchanged. -/
def get_current_balance (r : HttpResult) : String × List LogEvent :=
  match r with
  | .exn => ("0", [.error "http request raised"])
  | .resp code body =>
    if raise_for_status_raises code then
      ("0", [.error "http status error"])
    else if code = 200 then
      match body with
      | .errorField => ("0", [.error "rpc error"])
      | .result s => (s, [])
      | .malformed => ("0", [.error "unexpected response format"])
    else
      ("0", [.error "unexpected status code"])

/-- Decides whether an HTTP outcome is one of the failure paths of
get_current_balance (HTTP exception, non-200 status, RPC error field,
missing totalBalance). -/
def fetch_error : HttpResult → Bool
  | .exn => true
  | .resp _ .errorField => true
  | .resp _ .malformed => true
  | .resp code (.result _) => !(code == 200)

/-- Accumulating decimal-digit parser used by str_to_int?. -/
def parse_digits (acc : Nat) : List Char → Option Nat
  | [] => some acc
  | c :: cs => if c.isDigit then parse_digits (10 * acc + (c.toNat - 48)) cs else none

/-- Models Python `int(s)` on the strings monitor_profit feeds it (decimal
integer strings, possibly negative): some value on a well-formed decimal
string, none where `int()` would raise ValueError. -/
def str_to_int? (s : String) : Option Int :=
  match s.data with
  | [] => none
  | '-' :: cs =>
    match cs with
    | [] => none
    | _ => (parse_digits 0 cs).map (fun n => -(n : Int))
  | cs => (parse_digits 0 cs).map (fun n => (n : Int))

/-- Python truthiness of the get_tx result: None and the empty string are
falsy, any other string is truthy (source line 116). -/
def truthy : Option String → Bool
  | none => false
  | some s => s != ""

/-- Result of one call to monitor_profit: the new value of the global
profit_address_balance and whether send_telegram_message was called. -/
structure MonitorOut where
  newBalance : Int
  sent : Bool
  deriving Repr, DecidableEq

/-- monitor_profit (source lines 78-133) as a function of the previous
baseline, the HTTP outcome of the balance query, and the value get_tx
would return if called.  `Except` models the uncaught ValueError that
`int()` would raise on a non-numeric totalBalance string; on every input
the source actually produces, the result is `.ok`. -/
def monitor_profit (profit_address_balance : Int) (fetch : HttpResult)
    (tx_hash : Option String) : Except Unit MonitorOut :=
  let current_str := (get_current_balance fetch).1
  if current_str = "0" then
    .ok { newBalance := profit_address_balance, sent := false }
  else
    match str_to_int? current_str with
    | none => .error ()
    | some current =>
      let sent :=
        if profit_address_balance ≠ 0 ∧
            current - profit_address_balance ≥ BALANCE_DIFF_THRESHOLD then
          truthy tx_hash
        else false
      .ok { newBalance := current, sent := sent }

/-- One iteration of the monitor's main loop (source lines 255-261):
run monitor_profit, then `time.sleep(1)`.  The Nat is the sleep length
in seconds. -/
def monitor_tick (b : Int) (fetch : HttpResult) (tx : Option String) :
    Except Unit (MonitorOut × Nat) :=
  match monitor_profit b fetch tx with
  | .ok o => .ok (o, 1)
  | .error e => .error e

/-- The monitor loop run over a finite prefix of iteration inputs,
threading the single global profit_address_balance.  An uncaught
exception ends the loop (and the process), so the trace stops there. -/
def run_monitor (b : Int) :
    List (HttpResult × Option String) → List (MonitorOut × Nat)
  | [] => []
  | (f, tx) :: rest =>
    match monitor_tick b f tx with
    | .ok (o, s) => (o, s) :: run_monitor o.newBalance rest
    | .error _ => []

/-- The value of profit_address_balance after the monitor loop has
consumed the given inputs. -/
def final_balance (b : Int) :
    List (HttpResult × Option String) → Int
  | [] => b
  | (f, tx) :: rest =>
    match monitor_tick b f tx with
    | .ok (o, _) => final_balance o.newBalance rest
    | .error _ => b

/- ### restart_bot.py -/

/-- The three tmux commands restart_bot runs, in source order. -/
inductive TAction where
  | killSession
  | newSession
  | sendKeys
  deriving Repr, DecidableEq

/-- Environment inputs of one restart_bot invocation: the returncode of
`tmux kill-session` (run without check, so a nonzero code does not
raise), and whether the two checked commands `tmux new-session` and
`tmux send-keys` succeed (a failure raises CalledProcessError). -/
structure RestartInput where
  killRet : Int
  newSessionOk : Bool
  sendKeysOk : Bool
  deriving Repr, DecidableEq

/-- Observable outcome of one restart_bot invocation: the tmux commands
actually executed, in order, and the log lines written. -/
structure RestartOut where
  actions : List TAction
  logs : List LogEvent
  deriving Repr, DecidableEq

/-- The exception a checked `subprocess.run` raises on failure. -/
inductive PyExn where
  | calledProcessError (cmd : String)
  deriving Repr, DecidableEq

def killOkMsg : String := "killed existing tmux session mev-arb-bot"
def killFailMsg : String := "tmux session mev-arb-bot not found or could not be killed"
def newSessionMsg : String := "created new tmux session mev-arb-bot"
def sendKeysMsg : String := "sent bot start command to tmux session"
def tmuxErrMsg : String := "tmux command failed"

/-- The try-block of restart_bot (source lines 34-95): kill-session runs
unconditionally and only its returncode is inspected; new-session runs
next with check=True; send-keys runs last with check=True.  The second
component is the exception escaping the block, if any. -/
def restart_bot_try (i : RestartInput) : RestartOut × Option PyExn :=
  let killLog :=
    if i.killRet = 0 then LogEvent.info killOkMsg else LogEvent.info killFailMsg
  if i.newSessionOk then
    if i.sendKeysOk then
      ({ actions := [.killSession, .newSession, .sendKeys],
         logs := [killLog, .info newSessionMsg, .info sendKeysMsg] }, none)
    else
      ({ actions := [.killSession, .newSession, .sendKeys],
         logs := [killLog, .info newSessionMsg] },
       some (.calledProcessError "send-keys"))
  else
    ({ actions := [.killSession, .newSession],
       logs := [killLog] },
     some (.calledProcessError "new-session"))

/-- restart_bot (source lines 26-108): the try-block followed by the
except handlers, which log the error and return normally, so the
function as a whole is total and never propagates an exception. -/
def restart_bot (i : RestartInput) : RestartOut :=
  match restart_bot_try i with
  | (o, none) => o
  | (o, some (.calledProcessError _)) =>
      { o with logs := o.logs ++ [LogEvent.error tmuxErrMsg] }

/-- The restart interval of main (source line 120): 3 hours in seconds. -/
def interval : Nat := 3 * 60 * 60

/-- One iteration of main's loop (source lines 122-147): call restart_bot,
then `time.sleep(interval)`.  restart_bot is total, so the
`except Exception` branch of main (which would sleep 60 seconds) is
unreachable and the sleep is always the full interval. -/
def main_step (i : RestartInput) : RestartOut × Nat :=
  (restart_bot i, interval)

/-- The restarter loop over a finite prefix of iteration inputs.  No
state is carried between iterations, so the run is a plain map. -/
def run_restarter (is : List RestartInput) : List (RestartOut × Nat) :=
  is.map main_step

/- ### Basic lemmas about the embedded functions -/

/-- On every failure path, get_current_balance returns "0" and prints. -/
lemma get_current_balance_of_fetch_error (r : HttpResult)
    (h : fetch_error r = true) :
    (get_current_balance r).1 = "0" ∧ (get_current_balance r).2 ≠ [] := by
  match r with
  | .exn => exact ⟨rfl, by decide⟩
  | .resp code .errorField =>
      dsimp only [get_current_balance]
      split_ifs <;> simp
  | .resp code .malformed =>
      dsimp only [get_current_balance]
      split_ifs <;> simp
  | .resp code (.result s) =>
      have hc : code ≠ 200 := by
        intro e
        rw [e] at h
        simp [fetch_error] at h
      by_cases h1 : raise_for_status_raises code = true
      · simp [get_current_balance, h1]
      · simp [get_current_balance, h1, hc]

/-- When the fetch comes back "0", monitor_profit returns early with the
baseline unchanged and no message. -/
lemma monitor_profit_zero (b : Int) (r : HttpResult) (tx : Option String)
    (h0 : (get_current_balance r).1 = "0") :
    monitor_profit b r tx = .ok { newBalance := b, sent := false } := by
  simp only [monitor_profit]
  rw [if_pos h0]

/-- When the fetch comes back as a parseable nonzero string, monitor_profit
adopts the parsed value as the new baseline and sends exactly when the
threshold condition holds and the tx lookup is truthy. -/
lemma monitor_profit_parsed (b n : Int) (r : HttpResult) (tx : Option String)
    (hne : (get_current_balance r).1 ≠ "0")
    (hparse : str_to_int? ((get_current_balance r).1) = some n) :
    monitor_profit b r tx
      = .ok { newBalance := n,
              sent := if b ≠ 0 ∧ n - b ≥ BALANCE_DIFF_THRESHOLD
                      then truthy tx else false } := by
  simp only [monitor_profit]
  rw [if_neg hne, hparse]

/-- A monitor tick either propagates the exception or sleeps 1 second. -/
lemma monitor_tick_ok (b : Int) (f : HttpResult) (tx : Option String) :
    (∃ e, monitor_tick b f tx = .error e)
      ∨ ∃ o, monitor_tick b f tx = .ok (o, 1) := by
  unfold monitor_tick
  cases monitor_profit b f tx with
  | error e => exact Or.inl ⟨e, rfl⟩
  | ok o => exact Or.inr ⟨o, rfl⟩

/-- Every completed monitor tick carries a 1-second sleep. -/
lemma monitor_tick_sleep (b : Int) (f : HttpResult) (tx : Option String)
    (o : MonitorOut × Nat) (h : monitor_tick b f tx = .ok o) : o.2 = 1 := by
  rcases monitor_tick_ok b f tx with ⟨e, he⟩ | ⟨o2, ho⟩
  · rw [he] at h
    exact Except.noConfusion h
  · rw [ho] at h
    injection h with h1
    rw [← h1]

/-- Unfolding run_monitor over a successful tick. -/
lemma run_monitor_cons_ok {b : Int} {f : HttpResult} {tx : Option String}
    {o : MonitorOut} {s : Nat} {rest : List (HttpResult × Option String)}
    (ho : monitor_tick b f tx = .ok (o, s)) :
    run_monitor b ((f, tx) :: rest) = (o, s) :: run_monitor o.newBalance rest := by
  show (match monitor_tick b f tx with
        | .ok (o, s) => (o, s) :: run_monitor o.newBalance rest
        | .error _ => []) = _
  rw [ho]

/-- Unfolding run_monitor over a crashing tick. -/
lemma run_monitor_cons_err {b : Int} {f : HttpResult} {tx : Option String}
    {e : Unit} {rest : List (HttpResult × Option String)}
    (he : monitor_tick b f tx = .error e) :
    run_monitor b ((f, tx) :: rest) = [] := by
  show (match monitor_tick b f tx with
        | .ok (o, s) => (o, s) :: run_monitor o.newBalance rest
        | .error _ => []) = _
  rw [he]

/-- Unfolding final_balance over a successful tick. -/
lemma final_balance_cons_ok {b : Int} {f : HttpResult} {tx : Option String}
    {o : MonitorOut} {s : Nat} {rest : List (HttpResult × Option String)}
    (ho : monitor_tick b f tx = .ok (o, s)) :
    final_balance b ((f, tx) :: rest) = final_balance o.newBalance rest := by
  show (match monitor_tick b f tx with
        | .ok (o, _) => final_balance o.newBalance rest
        | .error _ => b) = _
  rw [ho]

/- ### Claims -/

/-- C7: get_current_balance sends a JSON-RPC 2.0 request with method
suix_getBalance whose params are exactly the monitored address, and
get_tx sends method suix_queryTransactionBlocks filtered by ToAddress
equal to the monitored address, with no cursor (null), limit 1, and
descending order (true). -/
theorem C7_payload_shapes : ∀ addr : String,
    (balance_payload addr).field? "jsonrpc" = some (.str "2.0")
  ∧ (balance_payload addr).field? "method" = some (.str "suix_getBalance")
  ∧ (balance_payload addr).field? "params" = some (.arr [.str addr])
  ∧ (tx_payload addr).field? "jsonrpc" = some (.str "2.0")
  ∧ (tx_payload addr).field? "method" = some (.str "suix_queryTransactionBlocks")
  ∧ (tx_payload addr).field? "params"
      = some (.arr [.obj [("filter", .obj [("ToAddress", .str addr)]),
                          ("options", tx_query_options)],
                    .null, .num 1, .bool true]) := by
  intro addr
  exact ⟨rfl, rfl, rfl, rfl, rfl, rfl⟩

/-- C8: get_current_balance is total and returns "0" on every failure
path (HTTP exception, non-200 status, error field, missing totalBalance);
on success it returns the totalBalance field unchanged, so a genuinely
zero balance is indistinguishable from a failed query. -/
theorem C8_zero_on_failure :
    (∀ r : HttpResult, (∀ s : String, r ≠ .resp 200 (.result s)) →
        (get_current_balance r).1 = "0")
  ∧ (∀ s : String, (get_current_balance (.resp 200 (.result s))).1 = s)
  ∧ (get_current_balance (.resp 200 (.result "0"))).1
      = (get_current_balance .exn).1 := by
  refine ⟨?_, fun s => rfl, rfl⟩
  intro r h
  match r with
  | .exn => rfl
  | .resp code .errorField =>
      dsimp only [get_current_balance]
      split_ifs <;> rfl
  | .resp code .malformed =>
      dsimp only [get_current_balance]
      split_ifs <;> rfl
  | .resp code (.result s) =>
      have hc : code ≠ 200 := fun e => h s (by rw [e])
      by_cases h1 : raise_for_status_raises code = true
      · simp [get_current_balance, h1]
      · simp [get_current_balance, h1, hc]

/-- Witness for C8: the first conjunct applied to an HTTP exception. -/
theorem C8_zero_on_failure_witness :
    (get_current_balance HttpResult.exn).1 = "0" :=
  C8_zero_on_failure.1 .exn (fun _ h => HttpResult.noConfusion h)

/-- C6: every restart_bot invocation attempts kill-session first and
new-session second, and attempts send-keys exactly when new-session
succeeded, never before it. -/
theorem C6_restart_order : ∀ i : RestartInput,
    (restart_bot i).actions.take 2 = [TAction.killSession, TAction.newSession]
  ∧ (TAction.sendKeys ∈ (restart_bot i).actions ↔ i.newSessionOk = true)
  ∧ ((restart_bot i).actions = [TAction.killSession, TAction.newSession]
      ∨ (restart_bot i).actions
          = [TAction.killSession, TAction.newSession, TAction.sendKeys]) := by
  rintro ⟨k, n, s⟩
  cases n <;> cases s <;> simp [restart_bot, restart_bot_try]

/-- C10: the kill-session returncode never affects which later steps run
(new-session is always attempted); only a CalledProcessError from
new-session skips send-keys, and it is logged as an error. -/
theorem C10_kill_failure_never_aborts : ∀ i : RestartInput,
    TAction.newSession ∈ (restart_bot i).actions
  ∧ (∀ k : Int, (restart_bot { i with killRet := k }).actions
        = (restart_bot i).actions)
  ∧ (i.newSessionOk = false →
        TAction.sendKeys ∉ (restart_bot i).actions
      ∧ LogEvent.error tmuxErrMsg ∈ (restart_bot i).logs)
  ∧ (i.newSessionOk = true → TAction.sendKeys ∈ (restart_bot i).actions) := by
  rintro ⟨k, n, s⟩
  cases n <;> cases s <;> simp [restart_bot, restart_bot_try]

/-- Witness for C10: a failed kill (returncode 5) with a failing
new-session, and a fully successful invocation. -/
theorem C10_witness :
    TAction.newSession ∈ (restart_bot ⟨5, false, true⟩).actions
  ∧ (TAction.sendKeys ∉ (restart_bot ⟨5, false, true⟩).actions
      ∧ LogEvent.error tmuxErrMsg ∈ (restart_bot ⟨5, false, true⟩).logs)
  ∧ TAction.sendKeys ∈ (restart_bot ⟨0, true, true⟩).actions :=
  ⟨(C10_kill_failure_never_aborts ⟨5, false, true⟩).1,
   (C10_kill_failure_never_aborts ⟨5, false, true⟩).2.2.1 rfl,
   (C10_kill_failure_never_aborts ⟨0, true, true⟩).2.2.2 rfl⟩

/-- C1 counterexample: with baseline 1 MIST and current balance
500000002 MIST the profit 500000001 strictly exceeds the threshold, yet
no message is sent because get_tx returned None; and with current balance
500000001 MIST the profit equals the threshold exactly — it does not
strictly exceed it — yet a message is sent when get_tx returns a hash.
So notification is not posted exactly when profit exceeds the threshold. -/
theorem C1_counterexample :
    (monitor_profit 1 (.resp 200 (.result "500000002")) none
        = .ok { newBalance := 500000002, sent := false }
      ∧ (500000002 : Int) - 1 > BALANCE_DIFF_THRESHOLD)
  ∧ (monitor_profit 1 (.resp 200 (.result "500000001"))
        (some "https://suivision.xyz/txblock/abc")
        = .ok { newBalance := 500000001, sent := true }
      ∧ ¬((500000001 : Int) - 1 > BALANCE_DIFF_THRESHOLD)) := by
  exact ⟨⟨rfl, by decide⟩, ⟨rfl, by decide⟩⟩

/-- C1 (amended): in every iteration in which the current balance was
read as a parseable string other than "0", a notification is posted
exactly when the baseline is nonzero, the profit is at least
BALANCE_DIFF_THRESHOLD, and the transaction lookup returned a truthy
(non-None, non-empty) hash; otherwise no notification is posted. -/
theorem C1_amended (b n : Int) (r : HttpResult) (tx : Option String)
    (hne : (get_current_balance r).1 ≠ "0")
    (hparse : str_to_int? ((get_current_balance r).1) = some n) :
    ∃ o, monitor_profit b r tx = .ok o
      ∧ o.newBalance = n
      ∧ (o.sent = true ↔
          b ≠ 0 ∧ n - b ≥ BALANCE_DIFF_THRESHOLD ∧ truthy tx = true) := by
  refine ⟨_, monitor_profit_parsed b n r tx hne hparse, rfl, ?_⟩
  by_cases hcond : b ≠ 0 ∧ n - b ≥ BALANCE_DIFF_THRESHOLD
  · rw [if_pos hcond]
    exact ⟨fun ht => ⟨hcond.1, hcond.2, ht⟩, fun h3 => h3.2.2⟩
  · rw [if_neg hcond]
    constructor
    · intro h
      simp at h
    · rintro ⟨h1, h2, -⟩
      exact absurd ⟨h1, h2⟩ hcond

/-- Witness for the amended C1: a concrete iteration with baseline 1,
balance 600000001 and a transaction hash present. -/
theorem C1_amended_witness :
    ∃ o, monitor_profit 1 (.resp 200 (.result "600000001"))
          (some "https://suivision.xyz/txblock/abc") = .ok o
      ∧ o.newBalance = 600000001
      ∧ (o.sent = true ↔
          (1 : Int) ≠ 0 ∧ (600000001 : Int) - 1 ≥ BALANCE_DIFF_THRESHOLD
            ∧ truthy (some "https://suivision.xyz/txblock/abc") = true) :=
  C1_amended 1 600000001 (.resp 200 (.result "600000001"))
    (some "https://suivision.xyz/txblock/abc") (by decide) rfl

/-- C9: whenever the fetch returns a parseable string other than "0",
monitor_profit sets the baseline to the fetched balance (whether or not
a message was sent, and also when the balance decreased); when the fetch
returns "0", the baseline is left unchanged and nothing is sent. -/
theorem C9_baseline_update :
    (∀ (b n : Int) (r : HttpResult) (tx : Option String),
        (get_current_balance r).1 ≠ "0" →
        str_to_int? ((get_current_balance r).1) = some n →
        ∃ o, monitor_profit b r tx = .ok o ∧ o.newBalance = n)
  ∧ (∀ (b : Int) (r : HttpResult) (tx : Option String),
        (get_current_balance r).1 = "0" →
        monitor_profit b r tx = .ok { newBalance := b, sent := false }) := by
  constructor
  · intro b n r tx hne hparse
    exact ⟨_, monitor_profit_parsed b n r tx hne hparse, rfl⟩
  · intro b r tx h0
    exact monitor_profit_zero b r tx h0

/-- Witness for C9: a decreasing balance (baseline 9, fetched 7) still
replaces the baseline, and a failed fetch leaves it unchanged. -/
theorem C9_witness :
    (∃ o, monitor_profit 9 (.resp 200 (.result "7")) none = .ok o
        ∧ o.newBalance = 7)
  ∧ monitor_profit 9 HttpResult.exn none
      = .ok { newBalance := 9, sent := false } :=
  ⟨C9_baseline_update.1 9 7 (.resp 200 (.result "7")) none (by decide) rfl,
   C9_baseline_update.2 9 .exn none rfl⟩

/-- C2: every error in an iteration (HTTP exception, non-200 status, RPC
error response, failing tmux command) is logged and the polling loop
continues: the monitor tick completes normally returning the old
baseline, and both loops process every iteration input. -/
theorem C2_errors_logged_loop_continues :
    (∀ (b : Int) (r : HttpResult) (tx : Option String),
        fetch_error r = true →
          (get_current_balance r).1 = "0"
        ∧ (get_current_balance r).2 ≠ []
        ∧ monitor_tick b r tx = .ok ({ newBalance := b, sent := false }, 1))
  ∧ (∀ i : RestartInput,
        (i.killRet ≠ 0 → LogEvent.info killFailMsg ∈ (restart_bot i).logs)
      ∧ (i.newSessionOk = false ∨ i.sendKeysOk = false →
            LogEvent.error tmuxErrMsg ∈ (restart_bot i).logs))
  ∧ (∀ (b : Int) (xs : List (HttpResult × Option String)),
        (∀ p ∈ xs, fetch_error p.1 = true) →
        (run_monitor b xs).length = xs.length)
  ∧ (∀ is : List RestartInput, (run_restarter is).length = is.length) := by
  refine ⟨?_, ?_, ?_, ?_⟩
  · intro b r tx hferr
    obtain ⟨h0, hlog⟩ := get_current_balance_of_fetch_error r hferr
    refine ⟨h0, hlog, ?_⟩
    unfold monitor_tick
    rw [monitor_profit_zero b r tx h0]
  · rintro ⟨k, n, s⟩
    constructor
    · intro hk
      cases n <;> cases s <;> simp [restart_bot, restart_bot_try, hk]
    · intro hns
      cases n <;> cases s <;> simp_all [restart_bot, restart_bot_try]
  · intro b xs
    induction xs generalizing b with
    | nil => intro _; rfl
    | cons p rest ih =>
        obtain ⟨f, tx⟩ := p
        intro hall
        have hf : fetch_error f = true := hall (f, tx) (List.mem_cons_self _ _)
        have h0 := (get_current_balance_of_fetch_error f hf).1
        have htick :
            monitor_tick b f tx = .ok ({ newBalance := b, sent := false }, 1) := by
          unfold monitor_tick
          rw [monitor_profit_zero b f tx h0]
        rw [run_monitor_cons_ok htick]
        simp only [List.length_cons]
        exact congrArg (· + 1) (ih b (fun q hq => hall q (List.mem_cons_of_mem _ hq)))
  · intro is
    simp [run_restarter]

/-- Witness for C2: an HTTP exception on the monitor side; a failed kill
(returncode 7) and a failed new-session on the restarter side; a
one-iteration run of the monitor loop with a failing fetch. -/
theorem C2_witness :
    ((get_current_balance HttpResult.exn).1 = "0"
      ∧ (get_current_balance HttpResult.exn).2 ≠ []
      ∧ monitor_tick 2 HttpResult.exn none
          = .ok ({ newBalance := 2, sent := false }, 1))
  ∧ (LogEvent.info killFailMsg ∈ (restart_bot ⟨7, true, true⟩).logs
      ∧ LogEvent.error tmuxErrMsg ∈ (restart_bot ⟨0, false, true⟩).logs)
  ∧ (run_monitor 2 [(HttpResult.exn, none)]).length = 1 :=
  ⟨C2_errors_logged_loop_continues.1 2 .exn none rfl,
   ⟨(C2_errors_logged_loop_continues.2.1 ⟨7, true, true⟩).1 (by decide),
    (C2_errors_logged_loop_continues.2.1 ⟨0, false, true⟩).2 (Or.inl rfl)⟩,
   C2_errors_logged_loop_continues.2.2.1 2 [(.exn, none)] (by decide)⟩


/-- C3: a failed iteration is retried only at the next regular tick: the
delay after any completed monitor iteration is the constant 1 second and
the delay after any restarter iteration is the full 3-hour interval,
regardless of whether the iteration failed. -/
theorem C3_fixed_retry_delay :
    (∀ (b : Int) (r : HttpResult) (tx : Option String) (o : MonitorOut × Nat),
        monitor_tick b r tx = .ok o → o.2 = 1)
  ∧ (∀ i : RestartInput, (main_step i).2 = 3 * 60 * 60) := by
  exact ⟨monitor_tick_sleep, fun _ => rfl⟩

/-- Witness for C3: the tick after a failing fetch sleeps 1 second, and
the restarter sleeps the full interval after a failing new-session. -/
theorem C3_witness :
    ((({ newBalance := 4, sent := false } : MonitorOut), 1) : MonitorOut × Nat).2 = 1
  ∧ (main_step ⟨1, false, false⟩).2 = 3 * 60 * 60 :=
  ⟨C3_fixed_retry_delay.1 4 .exn none _ rfl,
   C3_fixed_retry_delay.2 ⟨1, false, false⟩⟩

/-- C4: every iteration of the monitor loop sleeps exactly 1 second and
every iteration of the restarter loop sleeps exactly 3*60*60 seconds,
on every path through the loop body. -/
theorem C4_fixed_sleep_intervals :
    (∀ (b : Int) (xs : List (HttpResult × Option String)) (e : MonitorOut × Nat),
        e ∈ run_monitor b xs → e.2 = 1)
  ∧ (∀ (is : List RestartInput) (e : RestartOut × Nat),
        e ∈ run_restarter is → e.2 = 3 * 60 * 60) := by
  constructor
  · intro b xs
    induction xs generalizing b with
    | nil =>
        intro e he
        simp [run_monitor] at he
    | cons p rest ih =>
        obtain ⟨f, tx⟩ := p
        intro e he
        rcases monitor_tick_ok b f tx with ⟨ex, hex⟩ | ⟨o, ho⟩
        · rw [run_monitor_cons_err hex] at he
          simp at he
        · rw [run_monitor_cons_ok ho] at he
          rcases List.mem_cons.1 he with he | he
          · rw [he]
          · exact ih o.newBalance e he
  · intro is e he
    simp only [run_restarter, List.mem_map] at he
    obtain ⟨i, _, hie⟩ := he
    rw [← hie]
    rfl

/-- Witness for C4: concrete one-iteration runs of both loops. -/
theorem C4_witness :
    ((({ newBalance := 9, sent := false } : MonitorOut), 1) : MonitorOut × Nat).2 = 1
  ∧ ((restart_bot ⟨0, true, true⟩, interval) : RestartOut × Nat).2 = 3 * 60 * 60 :=
  ⟨C4_fixed_sleep_intervals.1 9 [(.exn, none)] _ (by decide),
   C4_fixed_sleep_intervals.2 [⟨0, true, true⟩] _ (by decide)⟩

/-- C5: the restarter carries no state between iterations (its run over a
concatenation is the concatenation of the runs, each iteration depending
only on its own input), and the monitor carries exactly the single
variable profit_address_balance (the run after a prefix is determined by
that one value, final_balance, alone). -/
theorem C5_single_state_variable :
    (∀ is₁ is₂ : List RestartInput,
        run_restarter (is₁ ++ is₂) = run_restarter is₁ ++ run_restarter is₂)
  ∧ (∀ (b : Int) (xs ys : List (HttpResult × Option String)),
        (run_monitor b xs).length = xs.length →
        run_monitor b (xs ++ ys)
          = run_monitor b xs ++ run_monitor (final_balance b xs) ys) := by
  constructor
  · intro is₁ is₂
    simp [run_restarter]
  · intro b xs ys
    induction xs generalizing b with
    | nil => intro _; rfl
    | cons p rest ih =>
        obtain ⟨f, tx⟩ := p
        intro hlen
        rcases monitor_tick_ok b f tx with ⟨ex, hex⟩ | ⟨o, ho⟩
        · exfalso
          rw [run_monitor_cons_err hex] at hlen
          simp at hlen
        · have hlen2 : (run_monitor o.newBalance rest).length = rest.length := by
            rw [run_monitor_cons_ok ho] at hlen
            simpa using hlen
          have hstep : ((f, tx) :: rest) ++ ys = (f, tx) :: (rest ++ ys) := rfl
          rw [hstep, run_monitor_cons_ok ho, ih o.newBalance hlen2,
              run_monitor_cons_ok ho, final_balance_cons_ok ho]
          rfl

/-- Witness for C5: a two-iteration run of the monitor split in the
middle. -/
theorem C5_witness :
    run_monitor 0 ([(HttpResult.exn, none)] ++ [(HttpResult.exn, none)])
      = run_monitor 0 [(HttpResult.exn, none)]
        ++ run_monitor (final_balance 0 [(HttpResult.exn, none)])
            [(HttpResult.exn, none)] :=
  C5_single_state_variable.2 0 [(.exn, none)] [(.exn, none)] (by decide)

end SuiMev
